import Mathlib

/-!
Shallow embedding of the `claude_assistant` Home Assistant integration
(`custom_components/claude_assistant/`): the conversation agent of
`conversation.py` (history handling, system-prompt construction, tool
dispatch) and the config flow of `config_flow.py`.  External effects (the
provider client, `hass.services.async_call`, the provider API) are modelled
as explicit environment parameters, and the mutable agent state is passed
explicitly through each turn.
-/

namespace ClaudeAssistant

/-- An entry of `self.conversation_history`: a role-tagged text message. -/
structure Message where
  role : String
  content : String
  deriving DecidableEq, Repr

/-- One entity record built by `_gather_system_context` for a domain group. -/
structure EntityInfo where
  entity_id : String
  state : String
  name : String
  deriving DecidableEq, Repr

/-- The `system_info` part of the gathered context. -/
structure SystemInfo where
  version : String
  timezone : String
  deriving DecidableEq, Repr

/-- The context dict returned by `_gather_system_context`.  The Python dict
`entities_by_domain` is modelled as an insertion-ordered association list,
which is how Python dicts behave; its keys are distinct by construction. -/
structure Context where
  entity_count : Nat
  entities_by_domain : List (String × List EntityInfo)
  system_info : SystemInfo
  deriving DecidableEq, Repr

/-- One sample-entity entry of the entity summary, as appended by
`_create_system_prompt` for each of the first five entities of a domain. -/
def entityLine (e : EntityInfo) : String :=
  "  - " ++ e.name ++ " (" ++ e.entity_id ++ "): " ++ e.state

/-- The per-domain header entry appended by `_create_system_prompt`. -/
def domainHeader (domain : String) (n : Nat) : String :=
  "\n**" ++ domain.toUpper ++ "** (" ++ toString n ++ " entities)"

/-- The entries `_create_system_prompt` appends to `entity_summary` for one
domain group: the header, the first five entities, and a remainder entry
exactly when the domain has more than five entities. -/
def domainSummary (p : String × List EntityInfo) : List String :=
  domainHeader p.1 p.2.length :: (p.2.take 5).map entityLine ++
    (if p.2.length > 5 then ["  ... and " ++ toString (p.2.length - 5) ++ " more"] else [])

/-- Python `sorted(context["entities_by_domain"].items())`.  The domain keys
are distinct (they key a dict), so sorting the pairs orders them by domain
name; with distinct keys every sort produces the same list. -/
def sortedDomains (l : List (String × List EntityInfo)) : List (String × List EntityInfo) :=
  l.insertionSort (fun a b => a.1 ≤ b.1)

/-- The fixed capability and instruction tail of the system prompt. -/
def promptTail : String :=
  "\n\n# YOUR CAPABILITIES\nYou can control devices using these tools:\n- turn_on_device: Turn on lights, switches, scenes\n- turn_off_device: Turn off devices\n- set_temperature: Change thermostat temperature\n- set_brightness: Adjust light brightness\n- trigger_automation: Run automations\n\n# IMPORTANT INSTRUCTIONS\n- When users ask you to control devices, USE THE TOOLS immediately\n- Always use exact entity_ids from the list above\n- Confirm actions after executing them\n- Be helpful and conversational\n- If you\x27re unsure about an entity name, search the list\n\nThe user trusts you to control their home. Be accurate and helpful!"

/-- Translation of `_create_system_prompt`: renders the system overview, the
per-domain entity summary (domains sorted alphabetically, five samples per
domain), and the fixed capability and instruction sections. -/
def _create_system_prompt (context : Context) : String :=
  "You are Claude, an AI assistant integrated into Home Assistant with FULL CONTROL capabilities.\n\n# SYSTEM OVERVIEW\n- Home Assistant "
    ++ context.system_info.version
    ++ "\n- Timezone: " ++ context.system_info.timezone
    ++ "\n- Total entities: " ++ toString context.entity_count
    ++ "\n\n# ENTITIES IN THIS SYSTEM\n"
    ++ String.join ((sortedDomains context.entities_by_domain).map domainSummary).flatten
    ++ promptTail

/-- A call to `hass.services.async_call`: the domain, the service name and
the service-data fields this integration ever sends. -/
structure SCall where
  domain : String
  service : String
  entity_id : String
  temperature : Option Int := none
  brightness_pct : Option Int := none
  deriving DecidableEq, Repr

/-- Behaviour of `hass.services.async_call` in the environment: each call
either returns normally or raises an exception carrying a message. -/
abbrev ServiceEnv := SCall → Except String Unit

/-- The tool-input mapping, restricted to the three keys `_execute_tool`
ever reads.  A `none` field models the key being absent from the dict, so
that reading it raises `KeyError`. -/
structure ToolInput where
  entity_id : Option String := none
  temperature : Option Int := none
  brightness : Option Int := none
  deriving DecidableEq, Repr

/-- Helper for Python `entity_id.split(".")[0]` at the character-list level:
the longest prefix not containing a dot. -/
def splitDot : List Char → List Char
  | [] => []
  | c :: cs => if c = '.' then [] else c :: splitDot cs

/-- Python `entity_id.split(".")[0]`: the prefix of the identifier before
the first dot (the whole string when there is no dot). -/
def splitDomain (entity_id : String) : String :=
  String.mk (splitDot entity_id.data)

/-- Rendering of `str(KeyError(k))` as Python produces it: the missing key
in single quotes. -/
def keyError (k : String) : String := "\x27" ++ k ++ "\x27"

/-- Runs one `hass.services.async_call` under the surrounding `try` of
`_execute_tool`: on success the confirmation string is returned, on an
exception the `Error:` string; either way the call was issued. -/
def runCall (svc : ServiceEnv) (c : SCall) (success : String) : Option String × List SCall :=
  match svc c with
  | .ok _ => (some success, [c])
  | .error msg => (some ("Error: " ++ msg), [c])

/-- Translation of `_execute_tool`: returns the result string (`none`
models Python falling through the `if`/`elif` chain and returning `None`
for a tool name outside the five) together with the list of device-control
calls issued while handling the tool. -/
def _execute_tool (svc : ServiceEnv) (tool_name : String) (tool_input : ToolInput) :
    Option String × List SCall :=
  if tool_name = "turn_on_device" then
    match tool_input.entity_id with
    | none => (some ("Error: " ++ keyError ("entity_id")), [])
    | some eid =>
        runCall svc { domain := splitDomain eid, service := "turn_on", entity_id := eid }
          ("Turned on " ++ eid)
  else if tool_name = "turn_off_device" then
    match tool_input.entity_id with
    | none => (some ("Error: " ++ keyError ("entity_id")), [])
    | some eid =>
        runCall svc { domain := splitDomain eid, service := "turn_off", entity_id := eid }
          ("Turned off " ++ eid)
  else if tool_name = "set_temperature" then
    match tool_input.entity_id with
    | none => (some ("Error: " ++ keyError ("entity_id")), [])
    | some eid =>
        match tool_input.temperature with
        | none => (some ("Error: " ++ keyError ("temperature")), [])
        | some temp =>
            runCall svc { domain := "climate", service := "set_temperature", entity_id := eid,
                          temperature := some temp }
              ("Set " ++ eid ++ " to " ++ toString temp ++ "°C")
  else if tool_name = "set_brightness" then
    match tool_input.entity_id with
    | none => (some ("Error: " ++ keyError ("entity_id")), [])
    | some eid =>
        match tool_input.brightness with
        | none => (some ("Error: " ++ keyError ("brightness")), [])
        | some b =>
            runCall svc { domain := "light", service := "turn_on", entity_id := eid,
                          brightness_pct := some b }
              ("Set " ++ eid ++ " brightness to " ++ toString b ++ "%")
  else if tool_name = "trigger_automation" then
    match tool_input.entity_id with
    | none => (some ("Error: " ++ keyError ("entity_id")), [])
    | some eid =>
        runCall svc { domain := "automation", service := "trigger", entity_id := eid }
          ("Triggered " ++ eid)
  else (none, [])

/-- A content block of the provider response: plain text or a tool
invocation with its argument mapping. -/
inductive ContentBlock where
  | text (t : String)
  | tool_use (name : String) (input : ToolInput)
  deriving DecidableEq, Repr

/-- Whether a content block is a tool invocation. -/
def isToolUse : ContentBlock → Bool
  | ContentBlock.tool_use _ _ => true
  | _ => false

/-- The name and input of a tool invocation block, if it is one. -/
def toolUseOf : ContentBlock → Option (String × ToolInput)
  | ContentBlock.tool_use name input => some (name, input)
  | _ => none

/-- One entry of the `executed_actions` list. -/
structure ExecutedAction where
  tool : String
  input : ToolInput
  result : Option String
  deriving DecidableEq, Repr

/-- How a Python f-string renders an optional result: the string itself, or
the text `None` when the tool handler returned `None`. -/
def optionStr : Option String → String
  | some s => s
  | none => "None"

/-- The loop of `_process_response` over `response.content`: the
concatenated text blocks, the executed actions in the order received, and
all device-control calls issued. -/
def processBlocks (svc : ServiceEnv) : List ContentBlock → String × List ExecutedAction × List SCall
  | [] => ("", [], [])
  | ContentBlock.text t :: rest =>
      let r := processBlocks svc rest
      (t ++ r.1, r.2.1, r.2.2)
  | ContentBlock.tool_use name input :: rest =>
      let e := _execute_tool svc name input
      let r := processBlocks svc rest
      (r.1, { tool := name, input := input, result := e.1 } :: r.2.1, e.2 ++ r.2.2)

/-- The `action_summary` accumulation loop of `_process_response`: the fixed
heading followed by one line per executed action. -/
def actionSummary (actions : List ExecutedAction) : String :=
  actions.foldl (fun acc a => acc ++ ("- " ++ optionStr a.result ++ "\n"))
    ("\n\n✅ Actions executed:\n")

/-- Translation of `_process_response`: the final response text (with the
action summary appended exactly when actions were executed), the executed
actions, and the issued device-control calls. -/
def _process_response (svc : ServiceEnv) (blocks : List ContentBlock) :
    String × List ExecutedAction × List SCall :=
  let p := processBlocks svc blocks
  (if p.2.1 ≠ [] then p.1 ++ actionSummary p.2.1 else p.1, p.2.1, p.2.2)

/-- The mutable fields of `ClaudeConversationAgent` that a turn reads and
writes: whether `self.client` has been constructed, and the history. -/
structure AgentState where
  client : Bool
  conversation_history : List Message
  deriving DecidableEq, Repr

/-- The provider response for one request: a list of content blocks, or a
raised exception carrying a message. -/
inductive ApiResult where
  | ok (blocks : List ContentBlock)
  | error (msg : String)
  deriving DecidableEq, Repr

/-- The external world of one turn: the outcome of constructing the
provider client, the provider call as a function of the system prompt and
the message list, the gathered device-state context, and the behaviour of
device-control calls. -/
structure Env where
  clientInit : Except String Unit
  api : String → List Message → ApiResult
  context : Context
  svc : ServiceEnv

/-- What one call of `async_process` returns and leaves behind. -/
structure ProcessOutcome where
  speech : String
  state : AgentState
  apiCalled : Bool
  svcCalls : List SCall

/-- Python `self.conversation_history = self.conversation_history[-10:]`,
applied exactly when the length exceeds 10. -/
def truncate10 (h : List Message) : List Message :=
  if h.length > 10 then h.drop (h.length - 10) else h

/-- The body of `async_process` once the client exists: gather context,
build the prompt, append the user message, truncate, call the provider and
either process the response (appending the assistant reply to history) or
surface the error (leaving history with only the user message appended). -/
def processTurn (env : Env) (st : AgentState) (text : String) : ProcessOutcome :=
  let system_prompt := _create_system_prompt env.context
  let h := truncate10 (st.conversation_history ++ [{ role := "user", content := text }])
  match env.api system_prompt h with
  | ApiResult.error msg =>
      { speech := "Sorry, I encountered an error: " ++ msg,
        state := { st with conversation_history := h },
        apiCalled := true, svcCalls := [] }
  | ApiResult.ok blocks =>
      let p := _process_response env.svc blocks
      { speech := p.1,
        state := { st with conversation_history :=
                     h ++ [{ role := "assistant", content := p.1 }] },
        apiCalled := true, svcCalls := p.2.2 }

/-- Translation of `async_process`: lazy client construction first (on
failure the fixed message is returned and nothing else happens), then the
turn body. -/
def async_process (env : Env) (st : AgentState) (text : String) : ProcessOutcome :=
  if st.client then processTurn env st text
  else
    match env.clientInit with
    | .ok _ => processTurn env { st with client := true } text
    | .error _ =>
        { speech := "Sorry, I couldn\x27t connect to Claude AI. Please check your API key.",
          state := st, apiCalled := false, svcCalls := [] }

/-- A config-flow step outcome: a created entry or the form shown again
with its error mapping. -/
inductive FlowResult where
  | createEntry (title : String) (api_key : String)
  | showForm (errors : List (String × String))
  deriving DecidableEq, Repr

/-- A flow outcome together with the number of network calls made to the
provider while producing it. -/
structure FlowOutcome where
  result : FlowResult
  networkCalls : Nat
  deriving DecidableEq, Repr

/-- Modelled from the spec: the early variant of the user step of the
config flow is not among the repository sources (src contains only the
later live-validation variant of `async_step_user`).  Per the spec, the
early variant performs format validation only: a credential not starting
with the required prefix is rejected with a form error before any network
call is attempted, and no validation round-trip to the provider occurs. -/
def async_step_user_early (requiredPrefix api_key : String) : FlowOutcome :=
  if requiredPrefix.data.isPrefixOf api_key.data then
    { result := FlowResult.createEntry ("Claude AI Assistant") api_key, networkCalls := 0 }
  else
    { result := FlowResult.showForm [("base", "invalid_api_key")], networkCalls := 0 }

/-- Fixture: an empty device-state context. -/
def ctxEmpty : Context :=
  { entity_count := 0, entities_by_domain := [],
    system_info := { version := "2024.1.0", timezone := "UTC" } }

/-- Fixture: an environment whose provider call succeeds with no content. -/
def envOk : Env :=
  { clientInit := .ok (), api := fun _ _ => ApiResult.ok [],
    context := ctxEmpty, svc := fun _ => .ok () }

/-- Fixture: an environment whose provider call raises. -/
def envErr : Env :=
  { clientInit := .ok (), api := fun _ _ => ApiResult.error ("boom"),
    context := ctxEmpty, svc := fun _ => .ok () }

/-- Fixture: an environment whose client construction fails. -/
def envNoClient : Env :=
  { clientInit := .error ("bad key"), api := fun _ _ => ApiResult.ok [],
    context := ctxEmpty, svc := fun _ => .ok () }

/-- Fixture: an agent state with a constructed client and ten history entries. -/
def stTen : AgentState :=
  { client := true,
    conversation_history := (List.range 10).map
      (fun i => { role := "user", content := toString i }) }

/-- Fixture: a device-control environment that raises exactly on the entity
`light.b`. -/
def svcFailB : ServiceEnv :=
  fun c => if c.entity_id = "light.b" then .error ("boom") else .ok ()

/-- Fixture: a turn with three tool calls, the middle one of which will fail
under `svcFailB`. -/
def blocksThree : List ContentBlock :=
  [ContentBlock.tool_use ("turn_on_device") { entity_id := some ("light.a") },
   ContentBlock.tool_use ("turn_on_device") { entity_id := some ("light.b") },
   ContentBlock.tool_use ("turn_off_device") { entity_id := some ("light.c") }]

/-- Fixture: six entities of one category. -/
def sixLights : List EntityInfo :=
  [⟨"light.a", "on", "A"⟩, ⟨"light.b", "off", "B"⟩, ⟨"light.c", "on", "C"⟩,
   ⟨"light.d", "on", "D"⟩, ⟨"light.e", "off", "E"⟩, ⟨"light.f", "on", "F"⟩]

/-- Fixture: a two-category context. -/
def ctxTwo : Context :=
  { entity_count := 2,
    entities_by_domain := [("light", [⟨"light.a", "on", "A"⟩]),
                           ("switch", [⟨"switch.b", "off", "B"⟩])],
    system_info := { version := "1", timezone := "UTC" } }

/-- Fixture: the same snapshot as `ctxTwo` with the categories listed in the
other insertion order. -/
def ctxTwoSwapped : Context :=
  { entity_count := 2,
    entities_by_domain := [("switch", [⟨"switch.b", "off", "B"⟩]),
                           ("light", [⟨"light.a", "on", "A"⟩])],
    system_info := { version := "1", timezone := "UTC" } }

/-- Truncation never leaves more than ten entries. -/
theorem truncate10_length_le (h : List Message) : (truncate10 h).length ≤ 10 := by
  unfold truncate10
  split
  next hgt => simp only [List.length_drop]; omega
  next hgt => omega

/-- Truncation keeps a suffix: the oldest entries are the ones dropped. -/
theorem truncate10_suffix (h : List Message) : truncate10 h <:+ h := by
  unfold truncate10
  split
  · exact List.drop_suffix _ _
  · exact List.suffix_refl _

/-- A device-control call wrapped by `runCall` is issued exactly once,
whether it succeeds or raises. -/
theorem runCall_trace (svc : ServiceEnv) (c : SCall) (s : String) :
    (runCall svc c s).2 = [c] := by
  unfold runCall
  cases svc c <;> rfl

/-- A device-control call that raises yields the corresponding error string. -/
theorem runCall_error (svc : ServiceEnv) (c : SCall) (s msg : String)
    (h : svc c = Except.error msg) :
    (runCall svc c s).1 = some ("Error: " ++ msg) := by
  unfold runCall
  rw [h]

/-- Every branch of `_execute_tool` either issues no call (unknown tool or
missing argument) or is one `runCall`. -/
theorem execute_tool_cases (svc : ServiceEnv) (name : String) (input : ToolInput) :
    (_execute_tool svc name input).2 = []
    ∨ ∃ c s, _execute_tool svc name input = runCall svc c s := by
  unfold _execute_tool
  split_ifs with h1 h2 h3 h4 h5
  · cases hin : input.entity_id
    · exact Or.inl rfl
    · exact Or.inr ⟨_, _, rfl⟩
  · cases hin : input.entity_id
    · exact Or.inl rfl
    · exact Or.inr ⟨_, _, rfl⟩
  · cases hin : input.entity_id
    · exact Or.inl rfl
    · cases ht : input.temperature
      · exact Or.inl rfl
      · exact Or.inr ⟨_, _, rfl⟩
  · cases hin : input.entity_id
    · exact Or.inl rfl
    · cases hb : input.brightness
      · exact Or.inl rfl
      · exact Or.inr ⟨_, _, rfl⟩
  · cases hin : input.entity_id
    · exact Or.inl rfl
    · exact Or.inr ⟨_, _, rfl⟩
  · exact Or.inl rfl

/-- The executed actions are exactly the tool-use blocks, in order, each
paired with the dispatcher result for its name and input. -/
theorem processBlocks_actions (svc : ServiceEnv) (blocks : List ContentBlock) :
    (processBlocks svc blocks).2.1 =
      (blocks.filterMap toolUseOf).map
        (fun q => { tool := q.1, input := q.2, result := (_execute_tool svc q.1 q.2).1 }) := by
  induction blocks with
  | nil => rfl
  | cons b rest ih =>
      cases b with
      | text t => simpa [processBlocks, toolUseOf] using ih
      | tool_use name input => simp [processBlocks, toolUseOf, ih]

/-- One executed action per tool-use block. -/
theorem processBlocks_actions_length (svc : ServiceEnv) (blocks : List ContentBlock) :
    (processBlocks svc blocks).2.1.length = blocks.countP isToolUse := by
  induction blocks with
  | nil => rfl
  | cons b rest ih =>
      cases b with
      | text t => simpa [processBlocks, isToolUse, List.countP_cons] using ih
      | tool_use name input => simp [processBlocks, isToolUse, List.countP_cons, ih]

/-- Appending through a left fold lays the pieces out after the
accumulator. -/
theorem foldl_append_data (f : ExecutedAction → String) (l : List ExecutedAction)
    (init : String) :
    (l.foldl (fun acc a => acc ++ f a) init).data
      = init.data ++ (l.map (fun a => (f a).data)).flatten := by
  induction l generalizing init with
  | nil => simp
  | cons a l ih => simp [List.foldl_cons, ih]

/-- The action summary is the fixed heading followed by one line per
executed action. -/
theorem actionSummary_data (actions : List ExecutedAction) :
    (actionSummary actions).data
      = ("\n\n✅ Actions executed:\n").data
          ++ (actions.map (fun a => ("- " ++ optionStr a.result ++ "\n").data)).flatten := by
  unfold actionSummary
  exact foldl_append_data _ actions _

/-- A member of a list of lists is an infix of the flattened list. -/
theorem infix_flatten_of_mem {α : Type} {l : List α} {L : List (List α)} (h : l ∈ L) :
    l <:+: L.flatten := by
  induction L with
  | nil => cases h
  | cons x L ih =>
      rw [List.flatten_cons]
      rcases List.mem_cons.mp h with h | h
      · exact h ▸ List.infix_append [] l L.flatten
      · exact (ih h).trans (List.suffix_append _ _).isInfix

/-- Each executed action's line occurs inside the action summary. -/
theorem line_infix_actionSummary {a : ExecutedAction} {actions : List ExecutedAction}
    (ha : a ∈ actions) :
    ("- " ++ optionStr a.result ++ "\n").data <:+: (actionSummary actions).data := by
  rw [actionSummary_data]
  have hmem := List.mem_map_of_mem (fun a => ("- " ++ optionStr a.result ++ "\n").data) ha
  exact (infix_flatten_of_mem hmem).trans (List.suffix_append _ _).isInfix

/-- Each executed action's line occurs inside the final response text. -/
theorem line_infix_reply (svc : ServiceEnv) (blocks : List ContentBlock)
    {a : ExecutedAction} (ha : a ∈ (_process_response svc blocks).2.1) :
    ("- " ++ optionStr a.result ++ "\n").data <:+: (_process_response svc blocks).1.data := by
  have hne : (processBlocks svc blocks).2.1 ≠ [] := List.ne_nil_of_mem ha
  show ("- " ++ optionStr a.result ++ "\n").data
      <:+: (if (processBlocks svc blocks).2.1 ≠ [] then
              (processBlocks svc blocks).1 ++ actionSummary (processBlocks svc blocks).2.1
            else (processBlocks svc blocks).1).data
  rw [if_pos hne, String.data_append]
  exact (line_infix_actionSummary ha).trans (List.suffix_append _ _).isInfix

/-- The character-level split keeps exactly a dot-free prefix. -/
theorem splitDot_append (d rest : List Char) (hd : '.' ∉ d) :
    splitDot (d ++ '.' :: rest) = d := by
  induction d with
  | nil => simp [splitDot]
  | cons c cs ih =>
      have hcne : ¬ (c = '.') := fun hc => hd (List.mem_cons.mpr (Or.inl hc.symm))
      rw [List.cons_append]
      show (if c = '.' then [] else c :: splitDot (cs ++ '.' :: rest)) = c :: cs
      rw [if_neg hcne, ih (fun hm => hd (List.mem_cons_of_mem _ hm))]

/-- C4: in the rendered device summary, a category with more than five
entities contributes its header, exactly five sample entity entries and
exactly one remainder entry counting the rest; a category with at most five
entities contributes all of its entities and no remainder entry. -/
theorem C4_per_category_cap (domain : String) (entities : List EntityInfo) :
    (entities.length > 5 →
        domainSummary (domain, entities)
          = domainHeader domain entities.length :: (entities.take 5).map entityLine
              ++ ["  ... and " ++ toString (entities.length - 5) ++ " more"]
        ∧ ((entities.take 5).map entityLine).length = 5)
    ∧ (entities.length ≤ 5 →
        domainSummary (domain, entities)
          = domainHeader domain entities.length :: entities.map entityLine) := by
  constructor
  · intro h
    constructor
    · simp [domainSummary, h]
    · simp only [List.length_map, List.length_take]
      omega
  · intro h
    have h5 : ¬ entities.length > 5 := by omega
    simp [domainSummary, h5, List.take_of_length_le h]

/-- Witness for C4: a six-entity category shows five samples and one
remainder entry; a two-entity category shows both and no remainder. -/
theorem C4_per_category_cap_witness :
    (domainSummary ("light", sixLights)
        = domainHeader ("light") sixLights.length :: (sixLights.take 5).map entityLine
            ++ ["  ... and " ++ toString (sixLights.length - 5) ++ " more"]
      ∧ ((sixLights.take 5).map entityLine).length = 5)
    ∧ domainSummary ("switch", sixLights.take 2)
        = domainHeader ("switch") (sixLights.take 2).length
            :: (sixLights.take 2).map entityLine := by
  constructor
  · exact (C4_per_category_cap ("light") sixLights).1 (by decide)
  · exact (C4_per_category_cap ("switch") (sixLights.take 2)).2 (by decide)

/-- C7: in the early variant of the config-flow user step, a credential not
starting with the required prefix is rejected with the form error and zero
network calls to the provider are made. -/
theorem C7_prefix_rejected (p k : String) (h : p.data.isPrefixOf k.data = false) :
    async_step_user_early p k
      = { result := FlowResult.showForm [("base", "invalid_api_key")], networkCalls := 0 } := by
  unfold async_step_user_early
  simp [h]

/-- Witness for C7 at a concrete malformed credential. -/
theorem C7_prefix_rejected_witness :
    async_step_user_early ("sk-ant-") ("invalid-key")
      = { result := FlowResult.showForm [("base", "invalid_api_key")], networkCalls := 0 } :=
  C7_prefix_rejected _ _ (by decide)

/-- C8: when the client is not yet constructed and its construction fails,
the turn returns the fixed connection-failure message, issues no provider
call and no device-control calls, and leaves the agent state (history and
client flag) unchanged. -/
theorem C8_client_init_failure (env : Env) (st : AgentState) (text msg : String)
    (hc : st.client = false) (hinit : env.clientInit = Except.error msg) :
    async_process env st text
      = { speech := "Sorry, I couldn\x27t connect to Claude AI. Please check your API key.",
          state := st, apiCalled := false, svcCalls := [] } := by
  unfold async_process
  simp [hc, hinit]

/-- Witness for C8 at a concrete failing environment. -/
theorem C8_client_init_failure_witness :
    async_process envNoClient { client := false, conversation_history := [] } ("hi")
      = { speech := "Sorry, I couldn\x27t connect to Claude AI. Please check your API key.",
          state := { client := false, conversation_history := [] },
          apiCalled := false, svcCalls := [] } :=
  C8_client_init_failure envNoClient _ _ ("bad key") rfl rfl

/-- C10: a tool name outside the fixed set of five is handled without
raising, issues no device-control call and produces no result string, so a
turn consisting of that single call renders the summary line as `- None`. -/
theorem C10_unknown_tool (svc : ServiceEnv) (name : String) (input : ToolInput)
    (h1 : name ≠ "turn_on_device") (h2 : name ≠ "turn_off_device")
    (h3 : name ≠ "set_temperature") (h4 : name ≠ "set_brightness")
    (h5 : name ≠ "trigger_automation") :
    _execute_tool svc name input = (none, [])
    ∧ (_process_response svc [ContentBlock.tool_use name input]).1
        = "\n\n✅ Actions executed:\n- None\n" := by
  have he : _execute_tool svc name input = (none, []) := by
    unfold _execute_tool
    simp [h1, h2, h3, h4, h5]
  refine ⟨he, ?_⟩
  show (if ([{ tool := name, input := input,
               result := (_execute_tool svc name input).1 }] :
          List ExecutedAction) ≠ [] then
          "" ++ actionSummary [{ tool := name, input := input,
                                 result := (_execute_tool svc name input).1 }]
        else "")
      = "\n\n✅ Actions executed:\n- None\n"
  rw [if_pos (by simp), he]
  rfl

/-- Witness for C10 at a concrete unknown tool name. -/
theorem C10_unknown_tool_witness :
    _execute_tool (fun _ => Except.ok ()) ("dance_party") {} = (none, [])
    ∧ (_process_response (fun _ => Except.ok ())
          [ContentBlock.tool_use ("dance_party") {}]).1
        = "\n\n✅ Actions executed:\n- None\n" :=
  C10_unknown_tool _ _ _ (by decide) (by decide) (by decide) (by decide) (by decide)

/-- C1 counterexample: starting a successful turn with ten history entries,
the history holds eleven entries immediately after the assistant reply is
appended — the claimed bound of ten is exceeded, because `async_process`
truncates only after appending the user message, not after appending the
assistant reply. -/
theorem C1_history_truncation_counterexample :
    (async_process envOk stTen ("hi")).state.conversation_history.length = 11 := by
  decide

/-- C1 amended: after the user message is appended and the truncation runs,
the history length is at most ten and the kept entries are a suffix of the
appended history (the oldest entries are dropped first); after the
assistant reply is appended at the end of a successful turn the length is
at most eleven, not ten. -/
theorem C1_history_truncation_amended (env : Env) (st : AgentState) (text : String)
    (blocks : List ContentBlock) (hc : st.client = true)
    (hapi : env.api (_create_system_prompt env.context)
        (truncate10 (st.conversation_history ++ [{ role := "user", content := text }]))
        = ApiResult.ok blocks) :
    (truncate10 (st.conversation_history ++ [{ role := "user", content := text }])).length ≤ 10
    ∧ truncate10 (st.conversation_history ++ [{ role := "user", content := text }])
        <:+ st.conversation_history ++ [{ role := "user", content := text }]
    ∧ (async_process env st text).state.conversation_history
        = truncate10 (st.conversation_history ++ [{ role := "user", content := text }])
            ++ [{ role := "assistant", content := (_process_response env.svc blocks).1 }]
    ∧ (async_process env st text).state.conversation_history.length ≤ 11 := by
  have hrun : async_process env st text = processTurn env st text := by
    unfold async_process
    simp [hc]
  have h3 : (async_process env st text).state.conversation_history
      = truncate10 (st.conversation_history ++ [{ role := "user", content := text }])
          ++ [{ role := "assistant", content := (_process_response env.svc blocks).1 }] := by
    rw [hrun]
    simp only [processTurn, hapi]
  refine ⟨truncate10_length_le _, truncate10_suffix _, h3, ?_⟩
  rw [h3, List.length_append]
  have := truncate10_length_le
    (st.conversation_history ++ [{ role := "user", content := text }])
  simp only [List.length_cons, List.length_nil]
  omega

/-- Witness for the amended C1 at a concrete ten-entry state. -/
theorem C1_history_truncation_amended_witness :
    (truncate10 (stTen.conversation_history ++ [{ role := "user", content := "hi" }])).length
        ≤ 10
    ∧ (async_process envOk stTen ("hi")).state.conversation_history.length ≤ 11 := by
  have h := C1_history_truncation_amended envOk stTen ("hi") [] rfl rfl
  exact ⟨h.1, h.2.2.2⟩

/-- C2: when the provider call raises, the reply surfaces the raised message
after the fixed apology, no assistant entry is appended (the history is
exactly the truncated history ending in the user message), the client
survives for the next turn, and no device-control calls are made. -/
theorem C2_api_error (env : Env) (st : AgentState) (text msg : String)
    (hc : st.client = true)
    (hapi : env.api (_create_system_prompt env.context)
        (truncate10 (st.conversation_history ++ [{ role := "user", content := text }]))
        = ApiResult.error msg) :
    (async_process env st text).speech = "Sorry, I encountered an error: " ++ msg
    ∧ (async_process env st text).state.conversation_history
        = truncate10 (st.conversation_history ++ [{ role := "user", content := text }])
    ∧ (async_process env st text).state.client = st.client
    ∧ (async_process env st text).svcCalls = [] := by
  have hrun : async_process env st text = processTurn env st text := by
    unfold async_process
    simp [hc]
  rw [hrun]
  simp [processTurn, hapi]

/-- Witness for C2 at a concrete raising environment. -/
theorem C2_api_error_witness :
    (async_process envErr stTen ("hi")).speech = "Sorry, I encountered an error: " ++ "boom"
    ∧ (async_process envErr stTen ("hi")).state.conversation_history
        = truncate10 (stTen.conversation_history ++ [{ role := "user", content := "hi" }])
    ∧ (async_process envErr stTen ("hi")).svcCalls = [] := by
  have h := C2_api_error envErr stTen ("hi") ("boom") rfl rfl
  exact ⟨h.1, h.2.1, h.2.2.2⟩

/-- C9: the reply carries the fixed action-summary heading with one line
per executed action exactly when at least one tool call occurred; with zero
tool calls the reply is the concatenated text blocks alone. -/
theorem C9_action_summary_iff (svc : ServiceEnv) (blocks : List ContentBlock) :
    ((_process_response svc blocks).2.1 = [] ↔ blocks.countP isToolUse = 0)
    ∧ ((_process_response svc blocks).2.1 ≠ [] →
        (_process_response svc blocks).1
          = (processBlocks svc blocks).1 ++ actionSummary ((_process_response svc blocks).2.1)
        ∧ ("\n\n✅ Actions executed:\n").data <:+: (_process_response svc blocks).1.data
        ∧ (((_process_response svc blocks).2.1).map
              (fun a => "- " ++ optionStr a.result ++ "\n")).length
            = blocks.countP isToolUse)
    ∧ ((_process_response svc blocks).2.1 = [] →
        (_process_response svc blocks).1 = (processBlocks svc blocks).1) := by
  have hp2 : (_process_response svc blocks).2.1 = (processBlocks svc blocks).2.1 := rfl
  refine ⟨?_, ?_, ?_⟩
  · rw [hp2, ← processBlocks_actions_length svc blocks]
    exact List.length_eq_zero.symm
  · intro hne
    have hne' : (processBlocks svc blocks).2.1 ≠ [] := by rw [← hp2]; exact hne
    have h1 : (_process_response svc blocks).1
        = (processBlocks svc blocks).1 ++ actionSummary ((processBlocks svc blocks).2.1) := by
      show (if (processBlocks svc blocks).2.1 ≠ [] then
              (processBlocks svc blocks).1 ++ actionSummary ((processBlocks svc blocks).2.1)
            else (processBlocks svc blocks).1)
          = (processBlocks svc blocks).1 ++ actionSummary ((processBlocks svc blocks).2.1)
      rw [if_pos hne']
    refine ⟨h1, ?_, ?_⟩
    · rw [h1, String.data_append, actionSummary_data]
      have := List.infix_append ((processBlocks svc blocks).1.data)
        (("\n\n✅ Actions executed:\n").data)
        ((((processBlocks svc blocks).2.1).map
            (fun a => ("- " ++ optionStr a.result ++ "\n").data)).flatten)
      simpa [List.append_assoc] using this
    · rw [hp2, List.length_map, processBlocks_actions_length]
  · intro hemp
    have hemp' : (processBlocks svc blocks).2.1 = [] := by rw [← hp2]; exact hemp
    show (if (processBlocks svc blocks).2.1 ≠ [] then
            (processBlocks svc blocks).1 ++ actionSummary ((processBlocks svc blocks).2.1)
          else (processBlocks svc blocks).1)
        = (processBlocks svc blocks).1
    rw [if_neg (fun h => h hemp')]

/-- Witness for C9: a one-tool-call turn carries the heading, a text-only
turn does not change the reply text. -/
theorem C9_action_summary_iff_witness :
    ("\n\n✅ Actions executed:\n").data
        <:+: (_process_response (fun _ => Except.ok ())
            [ContentBlock.tool_use ("turn_on_device") { entity_id := some ("light.a") }]).1.data
    ∧ (_process_response (fun _ => Except.ok ()) [ContentBlock.text ("hello")]).1
        = (processBlocks (fun _ => Except.ok ()) [ContentBlock.text ("hello")]).1 := by
  constructor
  · exact ((C9_action_summary_iff (fun _ => Except.ok ())
      [ContentBlock.tool_use ("turn_on_device") { entity_id := some ("light.a") }]).2.1
        (by decide)).2.1
  · exact (C9_action_summary_iff (fun _ => Except.ok ())
      [ContentBlock.text ("hello")]).2.2 (by decide)

/-- C3: every tool call of a turn is executed in the order received, each
action's result is exactly what the dispatcher produced for its name and
input, a dispatch failure is caught locally and rendered as an `Error:`
string in that call's result, and every result line appears in the reply
text. -/
theorem C3_dispatch_independence (svc : ServiceEnv) (blocks : List ContentBlock) :
    ((_process_response svc blocks).2.1.map (fun a => (a.tool, a.input))
        = blocks.filterMap toolUseOf)
    ∧ (∀ a ∈ (_process_response svc blocks).2.1,
        a.result = (_execute_tool svc a.tool a.input).1)
    ∧ (∀ name input c msg, (_execute_tool svc name input).2 = [c] →
        svc c = Except.error msg →
        (_execute_tool svc name input).1 = some ("Error: " ++ msg))
    ∧ (∀ a ∈ (_process_response svc blocks).2.1,
        ("- " ++ optionStr a.result ++ "\n").data <:+: (_process_response svc blocks).1.data) := by
  have hp2 : (_process_response svc blocks).2.1 = (processBlocks svc blocks).2.1 := rfl
  refine ⟨?_, ?_, ?_, ?_⟩
  · have hfun : ((fun (a : ExecutedAction) => (a.tool, a.input)) ∘
        (fun (q : String × ToolInput) =>
          ({ tool := q.1, input := q.2,
             result := (_execute_tool svc q.1 q.2).1 } : ExecutedAction)))
        = id := by
      funext q
      rfl
    rw [hp2, processBlocks_actions, List.map_map, hfun, List.map_id]
  · intro a ha
    rw [hp2, processBlocks_actions] at ha
    obtain ⟨q, hq, rfl⟩ := List.mem_map.mp ha
    rfl
  · intro name input c msg h1 h2
    rcases execute_tool_cases svc name input with h | ⟨c2, s, heq⟩
    · rw [h] at h1
      exact absurd h1 (by simp)
    · rw [heq] at h1 ⊢
      rw [runCall_trace] at h1
      have hc2 : c2 = c := by simpa using h1
      subst hc2
      exact runCall_error svc c2 s msg h2
  · intro a ha
    exact line_infix_reply svc blocks ha

/-- Witness for C3: of three tool calls, the middle one fails and is
rendered as an error, and the first call's result line still appears in the
reply. -/
theorem C3_dispatch_independence_witness :
    (_process_response svcFailB blocksThree).2.1.map (fun a => (a.tool, a.input))
        = blocksThree.filterMap toolUseOf
    ∧ (_execute_tool svcFailB ("turn_on_device") { entity_id := some ("light.b") }).1
        = some ("Error: " ++ "boom")
    ∧ ("- " ++ optionStr (some ("Turned on light.a")) ++ "\n").data
        <:+: (_process_response svcFailB blocksThree).1.data := by
  obtain ⟨h1, h2, h3, h4⟩ := C3_dispatch_independence svcFailB blocksThree
  refine ⟨h1, ?_, ?_⟩
  · exact h3 ("turn_on_device") { entity_id := some ("light.b") }
      { domain := splitDomain ("light.b"), service := "turn_on", entity_id := "light.b" }
      ("boom") rfl rfl
  · exact h4 { tool := "turn_on_device", input := { entity_id := some ("light.a") },
               result := some ("Turned on light.a") } (by decide)

/-- C5: a `turn_on_device` call with an `entity_id` argument issues exactly
one device-control call whose domain is the prefix of the identifier before
the dot, whose action is `turn_on` and whose data carries the identifier;
on success the result string is `Turned on` followed by the identifier, and
that string appears in the reply of any turn containing the call. -/
theorem C5_turn_on_device (svc : ServiceEnv) (input : ToolInput) (eid : String)
    (hin : input.entity_id = some eid)
    (hsvc : svc { domain := splitDomain eid, service := "turn_on", entity_id := eid }
        = Except.ok ()) :
    (_execute_tool svc ("turn_on_device") input).2
        = [{ domain := splitDomain eid, service := "turn_on", entity_id := eid }]
    ∧ (_execute_tool svc ("turn_on_device") input).1 = some ("Turned on " ++ eid)
    ∧ (∀ d rest, eid.data = d.data ++ '.' :: rest → '.' ∉ d.data → splitDomain eid = d)
    ∧ (∀ blocks, ContentBlock.tool_use ("turn_on_device") input ∈ blocks →
        ("Turned on " ++ eid).data <:+: (_process_response svc blocks).1.data) := by
  have hexec : _execute_tool svc ("turn_on_device") input
      = (some ("Turned on " ++ eid),
         [{ domain := splitDomain eid, service := "turn_on", entity_id := eid }]) := by
    unfold _execute_tool
    rw [if_pos rfl, hin]
    show runCall svc { domain := splitDomain eid, service := "turn_on", entity_id := eid }
        ("Turned on " ++ eid) = _
    unfold runCall
    rw [hsvc]
  refine ⟨by rw [hexec], by rw [hexec], ?_, ?_⟩
  · intro d rest hdata hnod
    unfold splitDomain
    rw [hdata, splitDot_append d.data rest hnod]
  · intro blocks hmem
    have hq : (("turn_on_device" : String), input) ∈ blocks.filterMap toolUseOf :=
      List.mem_filterMap.mpr ⟨_, hmem, rfl⟩
    have ha : ({ tool := "turn_on_device", input := input,
                 result := (_execute_tool svc ("turn_on_device") input).1 } : ExecutedAction)
        ∈ (_process_response svc blocks).2.1 := by
      rw [show (_process_response svc blocks).2.1 = (processBlocks svc blocks).2.1 from rfl,
        processBlocks_actions]
      exact List.mem_map_of_mem _ hq
    have hline := line_infix_reply svc blocks ha
    rw [hexec] at hline
    refine List.IsInfix.trans ?_ hline
    show ("Turned on " ++ eid).data <:+: ("- " ++ ("Turned on " ++ eid) ++ "\n").data
    exact ⟨("- ").data, ("\n").data, by simp⟩

/-- Witness for C5 at the entity `light.living_room` of the spec's
end-to-end scenario. -/
theorem C5_turn_on_device_witness :
    (_execute_tool (fun _ => Except.ok ()) ("turn_on_device")
        { entity_id := some ("light.living_room") }).2
      = [{ domain := splitDomain ("light.living_room"), service := "turn_on",
           entity_id := "light.living_room" }]
    ∧ splitDomain ("light.living_room") = "light"
    ∧ (_execute_tool (fun _ => Except.ok ()) ("turn_on_device")
          { entity_id := some ("light.living_room") }).1
        = some ("Turned on " ++ "light.living_room")
    ∧ ("Turned on " ++ "light.living_room").data
        <:+: (_process_response (fun _ => Except.ok ())
            [ContentBlock.tool_use ("turn_on_device")
               { entity_id := some ("light.living_room") }]).1.data := by
  obtain ⟨h1, h2, h3, h4⟩ := C5_turn_on_device (fun _ => Except.ok ())
    { entity_id := some ("light.living_room") } ("light.living_room") rfl rfl
  exact ⟨h1, h3 ("light") (("living_room").data) (by decide) (by decide), h2,
    h4 _ (List.mem_cons_self _ _)⟩

/-- Sorting the domain groups is invariant under the order the dict listed
them in, as long as the domain keys are distinct (which a dict guarantees). -/
theorem sortedDomains_perm_eq (l1 l2 : List (String × List EntityInfo))
    (hperm : l1.Perm l2) (hnodup : (l1.map Prod.fst).Nodup) :
    sortedDomains l1 = sortedDomains l2 := by
  haveI htot : IsTotal (String × List EntityInfo) (fun a b => a.1 ≤ b.1) :=
    ⟨fun a b => le_total a.1 b.1⟩
  haveI htrans : IsTrans (String × List EntityInfo) (fun a b => a.1 ≤ b.1) :=
    ⟨fun a b c hab hbc => le_trans hab hbc⟩
  haveI hanti : IsAntisymm (String × List EntityInfo) (fun a b => a.1 < b.1) :=
    ⟨fun a b h1 h2 => absurd (lt_trans h1 h2) (lt_irrefl _)⟩
  have hp1 : (sortedDomains l1).Perm l1 := List.perm_insertionSort _ _
  have hp2 : (sortedDomains l2).Perm l2 := List.perm_insertionSort _ _
  have hperm12 : (sortedDomains l1).Perm (sortedDomains l2) :=
    (hp1.trans hperm).trans hp2.symm
  have hnodup2 : (l2.map Prod.fst).Nodup := ((hperm.map Prod.fst).nodup_iff).mp hnodup
  have hn1 : ((sortedDomains l1).map Prod.fst).Nodup :=
    ((hp1.map Prod.fst).nodup_iff).mpr hnodup
  have hn2 : ((sortedDomains l2).map Prod.fst).Nodup :=
    ((hp2.map Prod.fst).nodup_iff).mpr hnodup2
  have hs1 : (sortedDomains l1).Sorted (fun a b => a.1 ≤ b.1) :=
    List.sorted_insertionSort _ _
  have hs2 : (sortedDomains l2).Sorted (fun a b => a.1 ≤ b.1) :=
    List.sorted_insertionSort _ _
  have hlt1 : (sortedDomains l1).Sorted (fun a b => a.1 < b.1) :=
    (List.Pairwise.and hs1 (List.pairwise_map.mp hn1)).imp
      (fun hab => lt_of_le_of_ne hab.1 hab.2)
  have hlt2 : (sortedDomains l2).Sorted (fun a b => a.1 < b.1) :=
    (List.Pairwise.and hs2 (List.pairwise_map.mp hn2)).imp
      (fun hab => lt_of_le_of_ne hab.1 hab.2)
  exact List.eq_of_perm_of_sorted hperm12 hlt1 hlt2

/-- C6: two calls of the prompt builder on identical snapshots — same
entity count, same per-domain entity lists (listed in any dict order, keys
distinct), same system info — render byte-identical prompt text. -/
theorem C6_prompt_deterministic (c1 c2 : Context)
    (hcount : c1.entity_count = c2.entity_count)
    (hsys : c1.system_info = c2.system_info)
    (hperm : c1.entities_by_domain.Perm c2.entities_by_domain)
    (hnodup : (c1.entities_by_domain.map Prod.fst).Nodup) :
    _create_system_prompt c1 = _create_system_prompt c2 := by
  unfold _create_system_prompt
  rw [hcount, hsys, sortedDomains_perm_eq _ _ hperm hnodup]

/-- Witness for C6: the same two-category snapshot presented in both dict
orders renders the same prompt. -/
theorem C6_prompt_deterministic_witness :
    _create_system_prompt ctxTwo = _create_system_prompt ctxTwoSwapped :=
  C6_prompt_deterministic ctxTwo ctxTwoSwapped rfl rfl (by decide) (by decide)

end ClaudeAssistant
